import Mathlib

/-! go_wechat: the chat-completion client (`gpt/chat.go`)

A shallow embedding of `gpt/chat.go` and theorems about its retry loop, its
error propagation and the request it puts on the wire.

Conventions of the embedding.

* A Go `error` is its message; `nil` is `none` of `Option GoError`.
* A Go `string` is a `String`: the strings considered are valid UTF-8.
* A Go slice is `Slice α = Option (List α)`, `none` being the nil slice.
* A `float32` is its IEEE-754 bit pattern, a natural number below `2^32`.
* A pair `(*ChatGPTResponseBody, error)` returned by
  `httpRequestChatCompletions` is an `Except GoError ChatGPTResponseBody`:
  every `return` of that function is `(nil, err)` or `(ptr, nil)`.
* Everything outside the package (the configuration loader, `net/http`,
  `ioutil.ReadAll`, `json.Unmarshal`) is the `World`: for each call of
  `httpRequestChatCompletions` it fixes what those collaborators answer.
* Side effects are recorded in a trace of `Event`s, in program order.
-/

namespace Gpt

/-! ## Go values -/

/-- A Go error value, represented by its message. -/
abbrev GoError := String

/-- A Go slice; `none` is the nil slice. -/
abbrev Slice (α : Type) := Option (List α)

/-- Go `len(s)`. -/
def Slice.len {α : Type} : Slice α → Nat
  | none => 0
  | some l => l.length

/-- Go `s[i]` for an index in range. -/
def Slice.index {α : Type} : (s : Slice α) → (i : Nat) → i < Slice.len s → α
  | some l, i, h => l.get ⟨i, h⟩
  | none, i, h => absurd h (Nat.not_lt_zero i)

/-- A JSON document, as `encoding/json` produces it before it is laid out as
text. Object fields keep the order in which the encoder emits them. -/
inductive JSON where
  | null : JSON
  | bool (b : Bool) : JSON
  | int (n : Int) : JSON
  | float32 (bits : Nat) : JSON
  | str (s : String) : JSON
  | arr (items : List JSON) : JSON
  | obj (fields : List (String × JSON)) : JSON

/-- The keys of a JSON object, in order; no keys for any other document. -/
def JSON.keys : JSON → List String
  | .obj fields => fields.map Prod.fst
  | _ => []

/-- The value stored under a key of a JSON object (first occurrence). -/
def JSON.field (k : String) : JSON → Option JSON
  | .obj fields => (fields.find? (fun kv => kv.1 == k)).map Prod.snd
  | _ => none

/-- Go `time.Millisecond`, in nanoseconds. -/
def Millisecond : Int := 1000000

/-- Go `time.Second`, in nanoseconds. -/
def Second : Int := 1000 * Millisecond

/-! ## Data model (chat.go:16-56) -/

structure ChatCompletionMessage where
  Role : String
  Content : String
  Name : String

structure ChatCompletionChoice where
  Message : ChatCompletionMessage
  FinishReason : String
  Index : Int

/-- The anonymous struct of the field `Error` of `ChatGPTResponseBody`;
`Param` and `Code` are `interface{}`, `none` being the nil interface; the Go
field `Type` is `Type_` here, `Type` being reserved. -/
structure ResponseError where
  Message : String
  Type_ : String
  Param : Option JSON
  Code : Option JSON

structure ChatGPTResponseBody where
  ID : String
  Object : String
  Created : Int
  Model : String
  Choices : Slice ChatCompletionChoice
  Usage : Option (List (String × JSON))
  Error : ResponseError

structure ChatCompletionRequest where
  Model : String
  Messages : Slice ChatCompletionMessage
  MaxTokens : Int
  Temperature : Nat
  TopP : Nat
  N : Int
  Stream : Bool
  Stop : Slice String
  PresencePenalty : Nat
  FrequencyPenalty : Nat
  LogitBias : Option (List (String × Int))
  User : String

/-- The fields of the configuration that `chat.go` reads. -/
structure Config where
  ApiUrl : String
  ApiKey : String
  Model : String

/-! ## `encoding/json` on the request types

`json.MarshalIndent` driven by the struct tags of chat.go:37-56: fields are
emitted in declaration order under their tag name, and a field tagged
`omitempty` is left out when it holds an empty value (false, 0, a nil
pointer or interface, an empty array, slice, map or string).

A string value is emitted as it is. That is what the encoder does with valid
UTF-8, the only strings a `String` can be: its escapes (of quotes, control
characters, `<`, `>`, `&`, U+2028, U+2029) are spellings of the same
characters in the text laid out, not other characters in the document. The
one rewriting it does, U+FFFD in place of each byte that is not valid UTF-8,
needs a string outside `String`; for such a prompt or model name the
document differs from what is defined here, and nothing is stated. -/

/-- The float `+0` or `-0`: the encoder's emptiness test `v.Float() == 0`. -/
def float32IsZero (bits : Nat) : Bool := bits % 2 ^ 31 == 0

/-- Encoding of a `float32`: NaN and the infinities (exponent all ones) are
an `UnsupportedValueError`. -/
def encodeFloat32 (bits : Nat) : Except GoError JSON :=
  if (bits / 2 ^ 23) % 256 = 255 then
    if bits % 2 ^ 23 ≠ 0 then .error "json: unsupported value: NaN"
    else if (bits / 2 ^ 31) % 2 = 1 then .error "json: unsupported value: -Inf"
    else .error "json: unsupported value: +Inf"
  else .ok (.float32 bits)

/-- Encoding of a `[]string`; the nil slice is `null`. -/
def encodeStrings : Slice String → JSON
  | none => .null
  | some l => .arr (l.map JSON.str)

/-- Insertion of a map entry into a key-sorted list. -/
def insertByKey (kv : String × Int) : List (String × Int) → List (String × Int)
  | [] => [kv]
  | x :: xs => if kv.1 < x.1 then kv :: x :: xs else x :: insertByKey kv xs

/-- Encoding of a `map[string]int`: an object with the keys sorted. -/
def encodeLogitBias : Option (List (String × Int)) → JSON
  | none => .null
  | some m => .obj ((m.foldr insertByKey []).map (fun kv => (kv.1, JSON.int kv.2)))

/-- Encoding of a `ChatCompletionMessage` (chat.go:37-41). -/
def encodeMessage (m : ChatCompletionMessage) : JSON :=
  .obj ([("role", JSON.str m.Role), ("content", JSON.str m.Content)]
    ++ (if m.Name = "" then [] else [("name", JSON.str m.Name)]))

/-- Encoding of a `[]ChatCompletionMessage`; the nil slice is `null`. -/
def encodeMessages : Slice ChatCompletionMessage → JSON
  | none => .null
  | some l => .arr (l.map encodeMessage)

/-- An `omitempty` field of type `float32`. -/
def omitemptyFloat32 (key : String) (bits : Nat) : Except GoError (List (String × JSON)) :=
  if float32IsZero bits then .ok []
  else match encodeFloat32 bits with
    | .error e => .error e
    | .ok v => .ok [(key, v)]

/-- The document `json.MarshalIndent(requestBody, "", "  ")` lays out, for a
`ChatCompletionRequest` (chat.go:43-56). -/
def marshalChatCompletionRequest (r : ChatCompletionRequest) : Except GoError JSON := do
  let model := [("model", JSON.str r.Model)]
  let messages := [("messages", encodeMessages r.Messages)]
  let maxTokens := if r.MaxTokens = 0 then [] else [("max_tokens", JSON.int r.MaxTokens)]
  let temperature ← omitemptyFloat32 "temperature" r.Temperature
  let topP ← omitemptyFloat32 "top_p" r.TopP
  let n := if r.N = 0 then [] else [("n", JSON.int r.N)]
  let stream := if r.Stream = false then [] else [("stream", JSON.bool r.Stream)]
  let stop := if Slice.len r.Stop = 0 then [] else [("stop", encodeStrings r.Stop)]
  let presencePenalty ← omitemptyFloat32 "presence_penalty" r.PresencePenalty
  let frequencyPenalty ← omitemptyFloat32 "frequency_penalty" r.FrequencyPenalty
  let logitBias :=
    if Slice.len r.LogitBias = 0 then [] else [("logit_bias", encodeLogitBias r.LogitBias)]
  let user := if r.User = "" then [] else [("user", JSON.str r.User)]
  return .obj (model ++ messages ++ maxTokens ++ temperature ++ topP ++ n ++ stream ++ stop
    ++ presencePenalty ++ frequencyPenalty ++ logitBias ++ user)

/-! ## The world and the trace -/

/-- What the collaborators answer during one call of
`httpRequestChatCompletions`. -/
structure Attempt where
  /-- The value of `config.LoadConfig()`. -/
  cfg : Config
  /-- The error of `http.NewRequest`, if any. -/
  newRequestErr : Option GoError
  /-- The error of `client.Do`, if any. -/
  doErr : Option GoError
  /-- The outcome of `ioutil.ReadAll(response.Body)`. -/
  readAll : Except GoError String
  /-- The outcome of `json.Unmarshal(body, gptResponseBody)`. -/
  unmarshal : Except GoError ChatGPTResponseBody

/-- The collaborators' answers, for the first, second, ... call of
`httpRequestChatCompletions` made by one call of `ChatCompletions`. -/
abbrev World := Nat → Attempt

/-- The observable steps of the program. -/
inductive Event where
  /-- Entry into `httpRequestChatCompletions(msg, runtimes)`. -/
  | call (msg : String) (runtimes : Nat) : Event
  /-- The call `config.LoadConfig()`. -/
  | loadConfig : Event
  /-- The call `json.MarshalIndent(requestBody, "", "  ")`. -/
  | marshalIndent (requestBody : ChatCompletionRequest) : Event
  /-- The call `http.NewRequest(method, url, body)`. -/
  | newRequest (method : String) (url : String) (body : JSON) : Event
  /-- The call `req.Header.Set(key, value)`. -/
  | headerSet (key : String) (value : String) : Event
  /-- The call `client.Do(req)` with the client's timeout. -/
  | clientDo (timeout : Int) : Event
  /-- The call `ioutil.ReadAll(response.Body)`. -/
  | readAll : Event
  /-- The call `json.Unmarshal(body, gptResponseBody)`. -/
  | unmarshal (body : String) : Event
  /-- The deferred `response.Body.Close()`. -/
  | bodyClose : Event
  /-- The call `log.Printf("gpt request(%d) error: %v\n", retry, resErr)`. -/
  | logPrintf (retry : Nat) (resErr : GoError) : Event
  /-- The call `time.Sleep(d)`. -/
  | sleep (d : Int) : Event

/-! ## `httpRequestChatCompletions` (chat.go:88-140) -/

/-- The struct literal of chat.go:97-106. -/
def requestBody (cfg : Config) (msg : String) : ChatCompletionRequest :=
  { Model := cfg.Model
    Messages := some [{ Role := "user", Content := msg, Name := "" }]
    MaxTokens := 0
    Temperature := 0
    TopP := 0
    N := 0
    Stream := false
    Stop := none
    PresencePenalty := 0
    FrequencyPenalty := 0
    LogitBias := none
    User := "" }

/-- The function `httpRequestChatCompletions`: its result and the steps it
takes, against the collaborators' answers `a`. -/
def httpRequestChatCompletions (a : Attempt) (msg : String) (runtimes : Nat) :
    Except GoError ChatGPTResponseBody × List Event :=
  let cfg := a.cfg
  let t0 := [Event.call msg runtimes, Event.loadConfig]
  if cfg.ApiUrl = "" then (.error "api url required", t0)
  else if cfg.ApiKey = "" then (.error "api key required", t0)
  else
    let t1 := t0 ++ [Event.marshalIndent (requestBody cfg msg)]
    match marshalChatCompletionRequest (requestBody cfg msg) with
    | .error err => (.error ("json.Marshal requestBody error: " ++ err), t1)
    | .ok requestData =>
      let t2 := t1 ++ [Event.newRequest "POST" (cfg.ApiUrl ++ "/v1/chat/completions") requestData]
      match a.newRequestErr with
      | some err => (.error ("http.NewRequest error: " ++ err), t2)
      | none =>
        let t3 := t2 ++ [Event.headerSet "Content-Type" "application/json",
          Event.headerSet "Authorization" ("Bearer " ++ cfg.ApiKey),
          Event.clientDo (60 * Second)]
        match a.doErr with
        | some err => (.error ("client.Do error: " ++ err), t3)
        | none =>
          match a.readAll with
          | .error err =>
            (.error ("ioutil.ReadAll error: " ++ err), t3 ++ [Event.readAll, Event.bodyClose])
          | .ok body =>
            let t4 := t3 ++ [Event.readAll, Event.unmarshal body, Event.bodyClose]
            match a.unmarshal with
            | .error err => (.error ("json.Marshal responseBody error: " ++ err), t4)
            | .ok gptResponseBody => (.ok gptResponseBody, t4)

/-! ## `ChatCompletions` (chat.go:58-85) -/

/-- The variables of `ChatCompletions` that the loop assigns, and the trace. -/
structure LoopState where
  gptResponseBody : Option ChatGPTResponseBody
  resErr : Option GoError
  trace : List Event

/-- The loop `for retry := 1; retry <= 3; retry++ { ... }` of chat.go:61-73,
entered with the counter at `retry`. -/
def retryLoop (w : World) (msg : String) (retry : Nat) (st : LoopState) : LoopState :=
  if retry ≤ 3 then
    let slept :=
      if retry > 1 then st.trace ++ [Event.sleep (((retry : Int) - 1) * 100 * Millisecond)]
      else st.trace
    match httpRequestChatCompletions (w retry) msg retry with
    | (.error resErr, steps) =>
      -- log and `continue`
      retryLoop w msg (retry + 1)
        { gptResponseBody := none, resErr := some resErr,
          trace := slept ++ steps ++ [Event.logPrintf retry resErr] }
    | (.ok gptResponseBody, steps) =>
      if gptResponseBody.Error.Message = "" then
        -- `break`
        { gptResponseBody := some gptResponseBody, resErr := none, trace := slept ++ steps }
      else
        retryLoop w msg (retry + 1)
          { gptResponseBody := some gptResponseBody, resErr := none, trace := slept ++ steps }
  else st
termination_by 4 - retry
decreasing_by all_goals omega

/-- What a call of `ChatCompletions` returns, and the steps it took. -/
structure Outcome where
  reply : String
  err : Option GoError
  trace : List Event

/-- The statements of chat.go:79-83: the reply taken from a response. -/
def replyOf (gptResponseBody : Option ChatGPTResponseBody) : String :=
  match gptResponseBody with
  | some body =>
    if h : 0 < Slice.len body.Choices then (Slice.index body.Choices 0 h).Message.Content
    else ""
  | none => ""

/-- The function `ChatCompletions`. -/
def ChatCompletions (w : World) (msg : String) : Outcome :=
  let st := retryLoop w msg 1 { gptResponseBody := none, resErr := none, trace := [] }
  match st.resErr with
  | some resErr => { reply := "", err := some resErr, trace := st.trace }
  | none => { reply := replyOf st.gptResponseBody, err := none, trace := st.trace }

/-! ## Reading a trace -/

/-- The result of the `n`-th call of `httpRequestChatCompletions`. -/
def attemptResult (w : World) (msg : String) (n : Nat) : Except GoError ChatGPTResponseBody :=
  (httpRequestChatCompletions (w n) msg n).1

/-- An attempt that ends the loop: a parsed response with empty
`error.message`. -/
def isSuccess : Except GoError ChatGPTResponseBody → Bool
  | .ok body => body.Error.Message == ""
  | .error _ => false

/-- The attempt numbers of a trace: the `runtimes` of each entry into
`httpRequestChatCompletions`, in order. -/
def attempts (trace : List Event) : List Nat :=
  trace.filterMap fun
    | .call _ n => some n
    | _ => none

/-- The durations slept in a trace, in order. -/
def sleeps (trace : List Event) : List Int :=
  trace.filterMap fun
    | .sleep d => some d
    | _ => none

/-- A point of the timeline of a call: an attempt starts, or the caller sleeps. -/
inductive Tick where
  | attempt (n : Nat) : Tick
  | sleep (d : Int) : Tick
  deriving DecidableEq, Repr

/-- The timeline of a trace: attempts and sleeps, in program order. -/
def timeline (trace : List Event) : List Tick :=
  trace.filterMap fun
    | .call _ n => some (.attempt n)
    | .sleep d => some (.sleep d)
    | _ => none

/-- The requests handed to `json.MarshalIndent` in a trace, in order. -/
def builtRequests (trace : List Event) : List ChatCompletionRequest :=
  trace.filterMap fun
    | .marshalIndent r => some r
    | _ => none

/-- The bodies handed to `http.NewRequest` in a trace, in order. -/
def requestBodies (trace : List Event) : List JSON :=
  trace.filterMap fun
    | .newRequest _ _ body => some body
    | _ => none

/-- The steps that build, send or read an HTTP exchange: everything from
chat.go:97 on. -/
def Event.isRequestStep : Event → Bool
  | .marshalIndent _ => true
  | .newRequest _ _ _ => true
  | .headerSet _ _ => true
  | .clientDo _ => true
  | .readAll => true
  | .unmarshal _ => true
  | .bodyClose => true
  | .call _ _ => false
  | .loadConfig => false
  | .logPrintf _ _ => false
  | .sleep _ => false

/-- The number of calls of `config.LoadConfig()` in a trace. -/
def configLoads (trace : List Event) : Nat :=
  trace.countP fun
    | .loadConfig => true
    | _ => false

/-- The steps of one turn of the loop of `ChatCompletions`: the sleep (from
the second turn on), the call, and the log line of a failed call. -/
def roundTrace (w : World) (msg : String) (retry : Nat) : List Event :=
  (if retry > 1 then [Event.sleep (((retry : Int) - 1) * 100 * Millisecond)] else [])
    ++ (httpRequestChatCompletions (w retry) msg retry).2
    ++ (match (httpRequestChatCompletions (w retry) msg retry).1 with
        | .error resErr => [Event.logPrintf retry resErr]
        | .ok _ => [])

/-! ## Worlds used as concrete inputs -/

/-- A response carrying one choice with the given content and the given
`error.message`. -/
def responseWith (content : String) (errorMessage : String) : ChatGPTResponseBody :=
  { ID := "chatcmpl-1", Object := "chat.completion", Created := 0, Model := "gpt-3.5-turbo"
    Choices := some [{ Message := { Role := "assistant", Content := content, Name := "" }
                       FinishReason := "stop", Index := 0 }]
    Usage := none
    Error := { Message := errorMessage, Type_ := "", Param := none, Code := none } }

/-- A complete configuration. -/
def goodConfig : Config :=
  { ApiUrl := "https://api.example.com", ApiKey := "sk-test", Model := "gpt-3.5-turbo" }

/-- An attempt in which every collaborator succeeds and the body parses to
`body`. -/
def answering (body : ChatGPTResponseBody) : Attempt :=
  { cfg := goodConfig, newRequestErr := none, doErr := none, readAll := .ok "body"
    unmarshal := .ok body }

/-- An attempt in which `client.Do` fails. -/
def timingOut : Attempt :=
  { cfg := goodConfig, newRequestErr := none, doErr := some "timeout", readAll := .ok ""
    unmarshal := .error "unexpected end of JSON input" }

/-- An attempt in which the configuration has no URL and no key. -/
def unconfigured : Attempt :=
  { cfg := { ApiUrl := "", ApiKey := "", Model := "gpt-3.5-turbo" }
    newRequestErr := none, doErr := none, readAll := .ok "body"
    unmarshal := .ok (responseWith "hello" "") }

/-- The provider reports an error at the first attempt and answers "hello"
from the second on. -/
def answersSecond : World := fun n =>
  if n = 1 then answering (responseWith "" "rate limited")
  else answering (responseWith "hello" "")

/-- The provider answers "hello" at every attempt. -/
def answersFirst : World := fun _ => answering (responseWith "hello" "")

/-- Every attempt times out. -/
def alwaysTimingOut : World := fun _ => timingOut

/-- The provider reports an error at every attempt, with a draft answer. -/
def alwaysRateLimited : World := fun _ => answering (responseWith "draft" "rate limited")

/-- The configuration has no URL and no key at every attempt. -/
def neverConfigured : World := fun _ => unconfigured

/-- The provider reports an error at the first attempt; the later attempts
time out. -/
def rateLimitedThenTimingOut : World := fun n =>
  if n = 1 then answering (responseWith "" "rate limited") else timingOut

/-! ## Lemmas on the encoder and on one call -/

theorem marshal_requestBody (cfg : Config) (msg : String) :
    marshalChatCompletionRequest (requestBody cfg msg) =
      .ok (.obj [("model", .str cfg.Model),
        ("messages", .arr [.obj [("role", .str "user"), ("content", .str msg)]])]) := by
  rfl

theorem http_of_no_url (a : Attempt) (msg : String) (n : Nat) (h : a.cfg.ApiUrl = "") :
    httpRequestChatCompletions a msg n
      = (.error "api url required", [Event.call msg n, Event.loadConfig]) := by
  simp [httpRequestChatCompletions, h]

theorem http_of_no_key (a : Attempt) (msg : String) (n : Nat) (hu : a.cfg.ApiUrl ≠ "")
    (h : a.cfg.ApiKey = "") :
    httpRequestChatCompletions a msg n
      = (.error "api key required", [Event.call msg n, Event.loadConfig]) := by
  simp [httpRequestChatCompletions, h, hu]

theorem attempts_steps (a : Attempt) (msg : String) (n : Nat) :
    attempts (httpRequestChatCompletions a msg n).2 = [n] := by
  unfold httpRequestChatCompletions
  simp only [marshal_requestBody]
  repeat' split
  all_goals simp [attempts]

theorem sleeps_steps (a : Attempt) (msg : String) (n : Nat) :
    sleeps (httpRequestChatCompletions a msg n).2 = [] := by
  unfold httpRequestChatCompletions
  simp only [marshal_requestBody]
  repeat' split
  all_goals simp [sleeps]

theorem timeline_steps (a : Attempt) (msg : String) (n : Nat) :
    timeline (httpRequestChatCompletions a msg n).2 = [.attempt n] := by
  unfold httpRequestChatCompletions
  simp only [marshal_requestBody]
  repeat' split
  all_goals simp [timeline]

theorem configLoads_steps (a : Attempt) (msg : String) (n : Nat) :
    configLoads (httpRequestChatCompletions a msg n).2 = 1 := by
  unfold httpRequestChatCompletions
  simp only [marshal_requestBody]
  repeat' split
  all_goals simp [configLoads]

theorem builtRequests_steps (a : Attempt) (msg : String) (n : Nat)
    (hu : a.cfg.ApiUrl ≠ "") (hk : a.cfg.ApiKey ≠ "") :
    builtRequests (httpRequestChatCompletions a msg n).2 = [requestBody a.cfg msg] := by
  unfold httpRequestChatCompletions
  simp only [marshal_requestBody, hu, hk, if_false]
  repeat' split
  all_goals simp [builtRequests]

theorem requestBodies_steps (a : Attempt) (msg : String) (n : Nat)
    (hu : a.cfg.ApiUrl ≠ "") (hk : a.cfg.ApiKey ≠ "") :
    requestBodies (httpRequestChatCompletions a msg n).2
      = [.obj [("model", .str a.cfg.Model),
          ("messages", .arr [.obj [("role", .str "user"), ("content", .str msg)]])]] := by
  unfold httpRequestChatCompletions
  simp only [marshal_requestBody, hu, hk, if_false]
  repeat' split
  all_goals simp [requestBodies]

theorem replyOf_some (r : ChatGPTResponseBody) :
    replyOf (some r)
      = (match r.Choices with
         | some (c :: _) => c.Message.Content
         | _ => "") := by
  obtain ⟨_, _, _, _, choices, _, _⟩ := r
  rcases choices with _ | (_ | ⟨c, cs⟩) <;> simp [replyOf, Slice.len, Slice.index]

/-! ## Lemmas on one turn of the loop -/

theorem attempts_roundTrace (w : World) (msg : String) (n : Nat) :
    attempts (roundTrace w msg n) = [n] := by
  have h := attempts_steps (w n) msg n
  unfold attempts at h ⊢
  unfold roundTrace
  by_cases h1 : n > 1 <;>
    rcases hr : (httpRequestChatCompletions (w n) msg n).1 with e | r <;>
    simp [h, h1]

theorem sleeps_roundTrace (w : World) (msg : String) (n : Nat) :
    sleeps (roundTrace w msg n)
      = if n > 1 then [((n : Int) - 1) * 100 * Millisecond] else [] := by
  have h := sleeps_steps (w n) msg n
  unfold sleeps at h ⊢
  unfold roundTrace
  by_cases h1 : n > 1 <;>
    rcases hr : (httpRequestChatCompletions (w n) msg n).1 with e | r <;>
    simp [h, h1]

theorem timeline_roundTrace (w : World) (msg : String) (n : Nat) :
    timeline (roundTrace w msg n)
      = if n > 1 then [.sleep (((n : Int) - 1) * 100 * Millisecond), .attempt n]
        else [.attempt n] := by
  have h := timeline_steps (w n) msg n
  unfold timeline at h ⊢
  unfold roundTrace
  by_cases h1 : n > 1 <;>
    rcases hr : (httpRequestChatCompletions (w n) msg n).1 with e | r <;>
    simp [h, h1]

theorem configLoads_roundTrace (w : World) (msg : String) (n : Nat) :
    configLoads (roundTrace w msg n) = 1 := by
  have h := configLoads_steps (w n) msg n
  unfold configLoads at h ⊢
  unfold roundTrace
  by_cases h1 : n > 1 <;>
    rcases hr : (httpRequestChatCompletions (w n) msg n).1 with e | r <;>
    simp [h, h1]

theorem attempts_rounds (w : World) (msg : String) (l : List Nat) :
    attempts (l.flatMap (roundTrace w msg)) = l := by
  induction l with
  | nil => rfl
  | cons n l ih =>
    have h := attempts_roundTrace w msg n
    unfold attempts at h ih ⊢
    simp [List.flatMap_cons, List.filterMap_append, h, ih]

theorem sleeps_rounds (w : World) (msg : String) (l : List Nat) :
    sleeps (l.flatMap (roundTrace w msg))
      = l.flatMap (fun n => if n > 1 then [((n : Int) - 1) * 100 * Millisecond] else []) := by
  induction l with
  | nil => rfl
  | cons n l ih =>
    have h := sleeps_roundTrace w msg n
    unfold sleeps at h ih ⊢
    simp only [List.flatMap_cons, List.filterMap_append, h, ih]

theorem timeline_rounds (w : World) (msg : String) (l : List Nat) :
    timeline (l.flatMap (roundTrace w msg))
      = l.flatMap (fun n =>
          if n > 1 then [Tick.sleep (((n : Int) - 1) * 100 * Millisecond), Tick.attempt n]
          else [Tick.attempt n]) := by
  induction l with
  | nil => rfl
  | cons n l ih =>
    have h := timeline_roundTrace w msg n
    unfold timeline at h ih ⊢
    simp only [List.flatMap_cons, List.filterMap_append, h, ih]

theorem configLoads_rounds (w : World) (msg : String) (l : List Nat) :
    configLoads (l.flatMap (roundTrace w msg)) = l.length := by
  induction l with
  | nil => rfl
  | cons n l ih =>
    have h := configLoads_roundTrace w msg n
    unfold configLoads at h ih ⊢
    simp only [List.flatMap_cons, List.countP_append, h, ih, List.length_cons]
    omega

/-! ## The loop, turn by turn -/

theorem retryLoop_exit (w : World) (msg : String) (retry : Nat) (st : LoopState)
    (h : 3 < retry) : retryLoop w msg retry st = st := by
  rw [retryLoop]; simp; omega

theorem retryLoop_step (w : World) (msg : String) (retry : Nat) (st : LoopState)
    (h : retry ≤ 3) :
    retryLoop w msg retry st =
      match attemptResult w msg retry with
      | .error e =>
        retryLoop w msg (retry + 1)
          { gptResponseBody := none, resErr := some e,
            trace := st.trace ++ roundTrace w msg retry }
      | .ok r =>
        if r.Error.Message = "" then
          { gptResponseBody := some r, resErr := none,
            trace := st.trace ++ roundTrace w msg retry }
        else
          retryLoop w msg (retry + 1)
            { gptResponseBody := some r, resErr := none,
              trace := st.trace ++ roundTrace w msg retry } := by
  rw [retryLoop]
  unfold attemptResult roundTrace
  rcases httpRequestChatCompletions (w retry) msg retry with ⟨_ | _, steps⟩
  · by_cases h1 : retry > 1 <;> simp [h, h1]
  · by_cases h1 : retry > 1 <;> simp [h, h1]

/-- A turn whose attempt is no success hands over to the next turn. -/
theorem retryLoop_continue (w : World) (msg : String) (j : Nat) (st : LoopState)
    (hle : j ≤ 3) (hj : isSuccess (attemptResult w msg j) = false) :
    ∃ b e, retryLoop w msg j st
      = retryLoop w msg (j + 1) ⟨b, e, st.trace ++ roundTrace w msg j⟩ := by
  rw [retryLoop_step w msg j st hle]
  rcases hr : attemptResult w msg j with e | r
  · exact ⟨_, _, rfl⟩
  · have : r.Error.Message ≠ "" := by simpa [isSuccess, hr] using hj
    simp only [this, if_false]
    exact ⟨_, _, rfl⟩

/-- A turn whose attempt is a success ends the loop. -/
theorem retryLoop_break (w : World) (msg : String) (j : Nat) (st : LoopState)
    (hle : j ≤ 3) (hj : isSuccess (attemptResult w msg j) = true) :
    ∃ r, attemptResult w msg j = .ok r ∧
      retryLoop w msg j st = ⟨some r, none, st.trace ++ roundTrace w msg j⟩ := by
  rw [retryLoop_step w msg j st hle]
  rcases hr : attemptResult w msg j with e | r
  · simp [isSuccess, hr] at hj
  · have : r.Error.Message = "" := by simpa [isSuccess, hr] using hj
    exact ⟨r, rfl, by simp [this]⟩

/-- The third turn is the last one, whatever its attempt returns. -/
theorem retryLoop_last (w : World) (msg : String) (st : LoopState) :
    retryLoop w msg 3 st =
      ⟨(match attemptResult w msg 3 with | .error _ => none | .ok r => some r),
       (match attemptResult w msg 3 with | .error e => some e | .ok _ => none),
       st.trace ++ roundTrace w msg 3⟩ := by
  rw [retryLoop_step w msg 3 st (by omega)]
  rcases hr : attemptResult w msg 3 with e | r
  · simp [retryLoop_exit]
  · by_cases hm : r.Error.Message = "" <;> simp [hm, retryLoop_exit]

/-- The state in which the loop of `ChatCompletions` ends: it stops at the
first successful attempt `k`, or at `k = 3`. -/
theorem retryLoop_spec (w : World) (msg : String) :
    ∃ k, 1 ≤ k ∧ k ≤ 3 ∧
      (∀ j, 1 ≤ j → j < k → isSuccess (attemptResult w msg j) = false) ∧
      (k < 3 → isSuccess (attemptResult w msg k) = true) ∧
      (retryLoop w msg 1 ⟨none, none, []⟩).trace
        = (List.range' 1 k).flatMap (roundTrace w msg) ∧
      (retryLoop w msg 1 ⟨none, none, []⟩).resErr
        = (match attemptResult w msg k with | .error e => some e | .ok _ => none) ∧
      (retryLoop w msg 1 ⟨none, none, []⟩).gptResponseBody
        = (match attemptResult w msg k with | .error _ => none | .ok r => some r) := by
  by_cases s1 : isSuccess (attemptResult w msg 1) = true
  · obtain ⟨r, hr, hl⟩ := retryLoop_break w msg 1 ⟨none, none, []⟩ (by omega) s1
    refine ⟨1, by omega, by omega, ?_, fun _ => s1, ?_, ?_, ?_⟩
    · intro j h1 h2; omega
    · rw [hl]; simp
    · rw [hl, hr]
    · rw [hl, hr]
  · have s1f : isSuccess (attemptResult w msg 1) = false := by simpa using s1
    obtain ⟨b1, e1, hl1⟩ := retryLoop_continue w msg 1 ⟨none, none, []⟩ (by omega) s1f
    by_cases s2 : isSuccess (attemptResult w msg 2) = true
    · obtain ⟨r, hr, hl⟩ :=
        retryLoop_break w msg 2 ⟨b1, e1, [] ++ roundTrace w msg 1⟩ (by omega) s2
      refine ⟨2, by omega, by omega, ?_, fun _ => s2, ?_, ?_, ?_⟩
      · intro j h1 h2
        have : j = 1 := by omega
        subst this; exact s1f
      · rw [hl1, hl]; simp [List.range']
      · rw [hl1, hl, hr]
      · rw [hl1, hl, hr]
    · have s2f : isSuccess (attemptResult w msg 2) = false := by simpa using s2
      obtain ⟨b2, e2, hl2⟩ :=
        retryLoop_continue w msg 2 ⟨b1, e1, [] ++ roundTrace w msg 1⟩ (by omega) s2f
      refine ⟨3, by omega, by omega, ?_, fun h => absurd h (by omega), ?_, ?_, ?_⟩
      · intro j h1 h2
        have : j = 1 ∨ j = 2 := by omega
        rcases this with rfl | rfl
        · exact s1f
        · exact s2f
      · rw [hl1, hl2, retryLoop_last]; simp [List.range']
      · rw [hl1, hl2, retryLoop_last]
      · rw [hl1, hl2, retryLoop_last]

/-- What `ChatCompletions` returns and does, in terms of the attempt `k` at
which its loop stops. -/
theorem ChatCompletions_spec (w : World) (msg : String) :
    ∃ k, 1 ≤ k ∧ k ≤ 3 ∧
      (∀ j, 1 ≤ j → j < k → isSuccess (attemptResult w msg j) = false) ∧
      (k < 3 → isSuccess (attemptResult w msg k) = true) ∧
      (ChatCompletions w msg).trace = (List.range' 1 k).flatMap (roundTrace w msg) ∧
      (ChatCompletions w msg).err
        = (match attemptResult w msg k with | .error e => some e | .ok _ => none) ∧
      (ChatCompletions w msg).reply
        = (match attemptResult w msg k with
           | .error _ => ""
           | .ok r => (match r.Choices with
                       | some (c :: _) => c.Message.Content
                       | _ => "")) := by
  obtain ⟨k, h1, h3, hbefore, hstop, htrace, herr, hbody⟩ := retryLoop_spec w msg
  refine ⟨k, h1, h3, hbefore, hstop, ?_, ?_, ?_⟩
  all_goals
    unfold ChatCompletions
    rcases hr : attemptResult w msg k with e | r
    all_goals
      rw [hr] at herr hbody
      simp only [herr, hbody, htrace, replyOf_some]

/-- The attempt at which the loop stops is the first successful one, when
there is one among the first three. -/
theorem stop_eq_first_success (w : World) (msg : String) (k k0 : Nat)
    (hk3 : k ≤ 3) (hk0 : k0 ≤ 3) (h1 : 1 ≤ k) (h0 : 1 ≤ k0)
    (hbefore : ∀ j, 1 ≤ j → j < k → isSuccess (attemptResult w msg j) = false)
    (hstop : k < 3 → isSuccess (attemptResult w msg k) = true)
    (hbefore0 : ∀ j, 1 ≤ j → j < k0 → isSuccess (attemptResult w msg j) = false)
    (hstop0 : k0 < 3 → isSuccess (attemptResult w msg k0) = true) : k = k0 := by
  rcases Nat.lt_trichotomy k k0 with h | h | h
  · have := hstop (by omega)
    rw [hbefore0 k h1 h] at this
    exact absurd this (by decide)
  · exact h
  · have := hstop0 (by omega)
    rw [hbefore k0 h0 h] at this
    exact absurd this (by decide)

theorem isSuccess_eq_false_iff (x : Except GoError ChatGPTResponseBody) :
    isSuccess x = false ↔
      (∃ e, x = .error e) ∨ (∃ r, x = .ok r ∧ r.Error.Message ≠ "") := by
  rcases x with e | r <;> simp [isSuccess]

theorem isSuccess_ok (r : ChatGPTResponseBody) (h : r.Error.Message = "") :
    isSuccess (.ok r) = true := by
  simp [isSuccess, h]

/-- With no URL or no key, a call returns the configuration error right
after loading the configuration. -/
theorem http_of_unconfigured (a : Attempt) (msg : String) (n : Nat)
    (h : a.cfg.ApiUrl = "" ∨ a.cfg.ApiKey = "") :
    httpRequestChatCompletions a msg n
      = (.error (if a.cfg.ApiUrl = "" then "api url required" else "api key required"),
         [Event.call msg n, Event.loadConfig]) := by
  by_cases hu : a.cfg.ApiUrl = ""
  · simp [http_of_no_url a msg n hu, hu]
  · rcases h with h | h
    · exact absurd h hu
    · simp [http_of_no_key a msg n hu h, hu]

/-- When none of the three attempts succeeds, the loop stops at the third. -/
theorem stop_eq_three (w : World) (msg : String) (k : Nat) (h1 : 1 ≤ k) (h3 : k ≤ 3)
    (hstop : k < 3 → isSuccess (attemptResult w msg k) = true)
    (hnone : ∀ j, 1 ≤ j → j < 3 → isSuccess (attemptResult w msg j) = false) : k = 3 := by
  by_contra hne
  have hlt : k < 3 := by omega
  have := hstop hlt
  rw [hnone k h1 hlt] at this
  exact absurd this (by decide)

/-! ## The claims -/

/-- C1. If attempt `k` (1 ≤ k ≤ 3) is the first whose outcome is a parsed
response with empty `error.message`, every earlier attempt being an error or
a response with non-empty `error.message`, then `ChatCompletions` performs
exactly the attempts 1..k and returns a nil error with the content of the
first choice of the `k`-th response, or the empty string when that response
has no choice. -/
theorem ChatCompletions_first_success (w : World) (msg : String) (k : Nat)
    (r : ChatGPTResponseBody) (hk1 : 1 ≤ k) (hk3 : k ≤ 3)
    (hk : attemptResult w msg k = .ok r) (hmsg : r.Error.Message = "")
    (hearlier : ∀ j, 1 ≤ j → j < k →
      (∃ e, attemptResult w msg j = .error e) ∨
      (∃ r0, attemptResult w msg j = .ok r0 ∧ r0.Error.Message ≠ "")) :
    attempts (ChatCompletions w msg).trace = List.range' 1 k ∧
    (attempts (ChatCompletions w msg).trace).length = k ∧
    (ChatCompletions w msg).err = none ∧
    (ChatCompletions w msg).reply
      = (match r.Choices with
         | some (c :: _) => c.Message.Content
         | _ => "") := by
  obtain ⟨k0, h1, h3, hbefore, hstop, htrace, herr, hreply⟩ := ChatCompletions_spec w msg
  have hkk : k0 = k :=
    stop_eq_first_success w msg k0 k h3 hk3 h1 hk1 hbefore hstop
      (fun j hj1 hjk => (isSuccess_eq_false_iff _).2 (hearlier j hj1 hjk))
      (fun _ => by rw [hk]; exact isSuccess_ok r hmsg)
  subst hkk
  rw [hk] at herr hreply
  refine ⟨?_, ?_, herr, hreply⟩
  · rw [htrace, attempts_rounds]
  · rw [htrace, attempts_rounds, List.length_range']

/-- C2. If every attempt returns an error, `ChatCompletions` makes exactly
three attempts, sleeps 100ms before the second and 200ms before the third
and not before the first, and returns the empty reply with the error of the
third attempt. -/
theorem ChatCompletions_all_errors (w : World) (msg : String) (e1 e2 e3 : GoError)
    (h1 : attemptResult w msg 1 = .error e1) (h2 : attemptResult w msg 2 = .error e2)
    (h3 : attemptResult w msg 3 = .error e3) :
    timeline (ChatCompletions w msg).trace
      = [.attempt 1, .sleep (100 * Millisecond), .attempt 2, .sleep (200 * Millisecond),
         .attempt 3] ∧
    (ChatCompletions w msg).reply = "" ∧
    (ChatCompletions w msg).err = some e3 := by
  obtain ⟨k, hk1, hk3, -, hstop, htrace, herr, hreply⟩ := ChatCompletions_spec w msg
  have hk : k = 3 := by
    apply stop_eq_three w msg k hk1 hk3 hstop
    intro j hj1 hj3
    have : j = 1 ∨ j = 2 := by omega
    rcases this with rfl | rfl
    · rw [h1]; rfl
    · rw [h2]; rfl
  subst hk
  rw [h3] at herr hreply
  refine ⟨?_, hreply, herr⟩
  rw [htrace, timeline_rounds]
  simp [List.range', Millisecond]

/-- C3. If all three attempts return a parsed response with non-empty
`error.message`, `ChatCompletions` makes exactly three attempts and returns a
nil error with the content of the first choice of the third response, or the
empty string when that response has no choice. -/
theorem ChatCompletions_all_provider_errors (w : World) (msg : String)
    (r1 r2 r3 : ChatGPTResponseBody)
    (h1 : attemptResult w msg 1 = .ok r1) (h2 : attemptResult w msg 2 = .ok r2)
    (h3 : attemptResult w msg 3 = .ok r3)
    (m1 : r1.Error.Message ≠ "") (m2 : r2.Error.Message ≠ "") (_m3 : r3.Error.Message ≠ "") :
    attempts (ChatCompletions w msg).trace = [1, 2, 3] ∧
    (ChatCompletions w msg).err = none ∧
    (ChatCompletions w msg).reply
      = (match r3.Choices with
         | some (c :: _) => c.Message.Content
         | _ => "") := by
  obtain ⟨k, hk1, hk3, -, hstop, htrace, herr, hreply⟩ := ChatCompletions_spec w msg
  have hk : k = 3 := by
    apply stop_eq_three w msg k hk1 hk3 hstop
    intro j hj1 hj3
    have : j = 1 ∨ j = 2 := by omega
    rcases this with rfl | rfl
    · rw [h1]; simp [isSuccess, m1]
    · rw [h2]; simp [isSuccess, m2]
  subst hk
  rw [h3] at herr hreply
  refine ⟨?_, herr, hreply⟩
  rw [htrace, attempts_rounds]
  rfl

/-- One turn of the loop under a configuration with no URL or no key. -/
theorem roundTrace_unconfigured (w : World) (msg : String) (n : Nat)
    (h : (w n).cfg.ApiUrl = "" ∨ (w n).cfg.ApiKey = "") :
    roundTrace w msg n
      = (if n > 1 then [Event.sleep (((n : Int) - 1) * 100 * Millisecond)] else [])
        ++ [Event.call msg n, Event.loadConfig,
            Event.logPrintf n
              (if (w n).cfg.ApiUrl = "" then "api url required" else "api key required")] := by
  unfold roundTrace
  rw [http_of_unconfigured (w n) msg n h]
  simp

theorem attemptResult_unconfigured (w : World) (msg : String) (n : Nat)
    (h : (w n).cfg.ApiUrl = "" ∨ (w n).cfg.ApiKey = "") :
    attemptResult w msg n
      = .error (if (w n).cfg.ApiUrl = "" then "api url required" else "api key required") := by
  unfold attemptResult
  rw [http_of_unconfigured (w n) msg n h]

/-- C4. If the configuration loaded at each attempt has an empty `ApiUrl` or
an empty `ApiKey`, `ChatCompletions` returns a non-nil error and the empty
reply, and its trace holds no step of building, sending or reading an HTTP
exchange: no request is marshalled and none is handed to `http.NewRequest`
or `client.Do`. -/
theorem ChatCompletions_unconfigured_no_http (w : World) (msg : String)
    (h : ∀ n, 1 ≤ n → n ≤ 3 → (w n).cfg.ApiUrl = "" ∨ (w n).cfg.ApiKey = "") :
    (ChatCompletions w msg).err ≠ none ∧
    (ChatCompletions w msg).reply = "" ∧
    (ChatCompletions w msg).trace.all (fun e => !e.isRequestStep) = true ∧
    builtRequests (ChatCompletions w msg).trace = [] ∧
    requestBodies (ChatCompletions w msg).trace = [] := by
  obtain ⟨k, hk1, hk3, -, hstop, htrace, herr, hreply⟩ := ChatCompletions_spec w msg
  have hk : k = 3 := by
    apply stop_eq_three w msg k hk1 hk3 hstop
    intro j hj1 hj3
    rw [attemptResult_unconfigured w msg j (h j hj1 (by omega))]
    rfl
  subst hk
  rw [attemptResult_unconfigured w msg 3 (h 3 (by omega) (by omega))] at herr hreply
  have t1 := roundTrace_unconfigured w msg 1 (h 1 (by omega) (by omega))
  have t2 := roundTrace_unconfigured w msg 2 (h 2 (by omega) (by omega))
  have t3 := roundTrace_unconfigured w msg 3 (h 3 (by omega) (by omega))
  refine ⟨?_, hreply, ?_, ?_, ?_⟩
  · rw [herr]; simp
  · rw [htrace]
    simp [List.range', t1, t2, t3, Event.isRequestStep]
  · rw [htrace]
    simp [List.range', t1, t2, t3, builtRequests]
  · rw [htrace]
    simp [List.range', t1, t2, t3, requestBodies]

/-- C5, as amended. If the configuration loaded at each attempt has an empty
`ApiUrl` or an empty `ApiKey`, the configuration check is retried like any
other failure: `ChatCompletions` performs exactly three attempts (three
configuration loads), sleeps 100ms and then 200ms, and returns the empty
reply with the configuration error of the third attempt. -/
theorem ChatCompletions_unconfigured_retries (w : World) (msg : String)
    (h : ∀ n, 1 ≤ n → n ≤ 3 → (w n).cfg.ApiUrl = "" ∨ (w n).cfg.ApiKey = "") :
    attempts (ChatCompletions w msg).trace = [1, 2, 3] ∧
    configLoads (ChatCompletions w msg).trace = 3 ∧
    sleeps (ChatCompletions w msg).trace = [100 * Millisecond, 200 * Millisecond] ∧
    (ChatCompletions w msg).reply = "" ∧
    (ChatCompletions w msg).err
      = some (if (w 3).cfg.ApiUrl = "" then "api url required" else "api key required") := by
  obtain ⟨k, hk1, hk3, -, hstop, htrace, herr, hreply⟩ := ChatCompletions_spec w msg
  have hk : k = 3 := by
    apply stop_eq_three w msg k hk1 hk3 hstop
    intro j hj1 hj3
    rw [attemptResult_unconfigured w msg j (h j hj1 (by omega))]
    rfl
  subst hk
  rw [attemptResult_unconfigured w msg 3 (h 3 (by omega) (by omega))] at herr hreply
  refine ⟨?_, ?_, ?_, hreply, herr⟩
  · rw [htrace, attempts_rounds]; rfl
  · rw [htrace, configLoads_rounds]; rfl
  · rw [htrace, sleeps_rounds]
    simp [List.range', Millisecond]

/-- C6. Under a configuration with non-empty `ApiUrl` and `ApiKey`,
`httpRequestChatCompletions` builds exactly one `ChatCompletionRequest`, the
same for every attempt number: `Stream` is false, `Model` is the configured
model and `Messages` holds exactly one message, of role "user" and with the
prompt as content. -/
theorem httpRequest_builds_user_message (a : Attempt) (msg : String)
    (hu : a.cfg.ApiUrl ≠ "") (hk : a.cfg.ApiKey ≠ "") :
    ∃ r m, (∀ runtimes, builtRequests (httpRequestChatCompletions a msg runtimes).2 = [r]) ∧
      r.Stream = false ∧ r.Model = a.cfg.Model ∧
      r.Messages = some [m] ∧ Slice.len r.Messages = 1 ∧
      m.Role = "user" ∧ m.Content = msg :=
  ⟨requestBody a.cfg msg, { Role := "user", Content := msg, Name := "" },
    fun runtimes => builtRequests_steps a msg runtimes hu hk, rfl, rfl, rfl, rfl, rfl, rfl⟩

/-- C7, as amended. For every configuration and every prompt, the model
name and the prompt being valid UTF-8 (as every `String` is), the JSON object
serialized from the request has exactly the top-level keys `model` and
`messages`: `model` is the configured model and `messages` is the one-element
array holding the object with `role` "user" and `content` the prompt. The key
`stream` is omitted with every other optional field, and so is the name of
the message. Every body handed to `http.NewRequest` is this object, and under
a configuration with non-empty `ApiUrl` and `ApiKey` exactly one is. Nothing
is said of a prompt or a model name that is not valid UTF-8. -/
theorem request_body_is_model_and_messages (a : Attempt) (msg : String) (runtimes : Nat) :
    marshalChatCompletionRequest (requestBody a.cfg msg)
      = .ok (.obj [("model", .str a.cfg.Model),
          ("messages", .arr [.obj [("role", .str "user"), ("content", .str msg)]])]) ∧
    (∀ body ∈ requestBodies (httpRequestChatCompletions a msg runtimes).2,
      body = .obj [("model", .str a.cfg.Model),
          ("messages", .arr [.obj [("role", .str "user"), ("content", .str msg)]])] ∧
      JSON.keys body = ["model", "messages"] ∧
      JSON.field "stream" body = none) ∧
    (a.cfg.ApiUrl ≠ "" → a.cfg.ApiKey ≠ "" →
      requestBodies (httpRequestChatCompletions a msg runtimes).2
        = [.obj [("model", .str a.cfg.Model),
            ("messages", .arr [.obj [("role", .str "user"), ("content", .str msg)]])]]) := by
  refine ⟨rfl, ?_, fun hu hk => requestBodies_steps a msg runtimes hu hk⟩
  intro body hb
  by_cases hu : a.cfg.ApiUrl = ""
  · rw [http_of_no_url a msg runtimes hu] at hb
    simp [requestBodies] at hb
  · by_cases hk : a.cfg.ApiKey = ""
    · rw [http_of_no_key a msg runtimes hu hk] at hb
      simp [requestBodies] at hb
    · rw [requestBodies_steps a msg runtimes hu hk, List.mem_singleton] at hb
      subst hb
      exact ⟨rfl, rfl, rfl⟩

/-- C8, as amended. If `ChatCompletions` returns a non-nil error, it made all
three attempts, the third attempt returned a transport- or parse-level error
and that error is the one returned, and each earlier attempt returned an
error or a parsed response with non-empty `error.message`. -/
theorem ChatCompletions_error_is_last_error (w : World) (msg : String)
    (h : (ChatCompletions w msg).err ≠ none) :
    attempts (ChatCompletions w msg).trace = [1, 2, 3] ∧
    (∃ e, attemptResult w msg 3 = .error e ∧ (ChatCompletions w msg).err = some e) ∧
    (∀ j, 1 ≤ j → j < 3 →
      (∃ e, attemptResult w msg j = .error e) ∨
      (∃ r, attemptResult w msg j = .ok r ∧ r.Error.Message ≠ "")) := by
  obtain ⟨k, hk1, hk3, hbefore, hstop, htrace, herr, -⟩ := ChatCompletions_spec w msg
  have hfail : ∃ e, attemptResult w msg k = .error e := by
    rcases hr : attemptResult w msg k with e | r
    · exact ⟨e, rfl⟩
    · rw [hr] at herr
      exact absurd herr h
  obtain ⟨e, he⟩ := hfail
  have hk : k = 3 := by
    by_contra hne
    have := hstop (by omega)
    rw [he] at this
    exact absurd this (by simp [isSuccess])
  subst hk
  rw [he] at herr
  refine ⟨?_, ⟨e, he, herr⟩, fun j hj1 hj3 => (isSuccess_eq_false_iff _).1 (hbefore j hj1 hj3)⟩
  rw [htrace, attempts_rounds]
  rfl

/-- C9. `ChatCompletions` returns a non-nil error exactly when the last
attempt it performed returned an error; the error returned is then that
attempt's and the reply is empty; otherwise the error is nil and the reply
is the content of the first choice of the last attempt's response, or the
empty string when that response has no choice. -/
theorem ChatCompletions_result_of_last_attempt (w : World) (msg : String) :
    ∃ k, (attempts (ChatCompletions w msg).trace).getLast? = some k ∧
      ((ChatCompletions w msg).err ≠ none ↔ ∃ e, attemptResult w msg k = .error e) ∧
      (∀ e, attemptResult w msg k = .error e →
        (ChatCompletions w msg).err = some e ∧ (ChatCompletions w msg).reply = "") ∧
      (∀ r, attemptResult w msg k = .ok r →
        (ChatCompletions w msg).err = none ∧
        (ChatCompletions w msg).reply
          = (match r.Choices with
             | some (c :: _) => c.Message.Content
             | _ => "")) := by
  obtain ⟨k, hk1, hk3, -, -, htrace, herr, hreply⟩ := ChatCompletions_spec w msg
  refine ⟨k, ?_, ?_, ?_, ?_⟩
  · rw [htrace, attempts_rounds]
    interval_cases k <;> rfl
  · rcases hr : attemptResult w msg k with e | r
    · rw [hr] at herr
      simp [herr]
    · rw [hr] at herr
      simp [herr]
  · intro e he
    rw [he] at herr hreply
    exact ⟨herr, hreply⟩
  · intro r hr
    rw [hr] at herr hreply
    exact ⟨herr, hreply⟩

/-- C10. `ChatCompletions` performs the attempts 1..k for some k between 1
and 3; it sleeps `(n - 1) * 100ms` immediately before attempt `n` for
n = 2, 3 and not before attempt 1; the total slept is 0ms, 100ms or 300ms for
1, 2 or 3 attempts, and never more than 300ms. -/
theorem ChatCompletions_retry_schedule (w : World) (msg : String) :
    ∃ k, 1 ≤ k ∧ k ≤ 3 ∧
      attempts (ChatCompletions w msg).trace = List.range' 1 k ∧
      timeline (ChatCompletions w msg).trace
        = (List.range' 1 k).flatMap (fun n =>
            if n > 1 then [Tick.sleep (((n : Int) - 1) * 100 * Millisecond), Tick.attempt n]
            else [Tick.attempt n]) ∧
      (sleeps (ChatCompletions w msg).trace).sum
        = (if k = 1 then 0 else if k = 2 then 100 * Millisecond else 300 * Millisecond) ∧
      (sleeps (ChatCompletions w msg).trace).sum ≤ 300 * Millisecond := by
  obtain ⟨k, hk1, hk3, -, -, htrace, -, -⟩ := ChatCompletions_spec w msg
  refine ⟨k, hk1, hk3, ?_, ?_, ?_, ?_⟩
  · rw [htrace, attempts_rounds]
  · rw [htrace, timeline_rounds]
  · rw [htrace, sleeps_rounds]
    interval_cases k <;> simp [List.range', Millisecond]
  · rw [htrace, sleeps_rounds]
    interval_cases k <;> simp [List.range', Millisecond]

/-! ## The claims at concrete inputs -/

/-- C1 at two concrete inputs: "hello" at the first attempt; an error
reported by the provider and then "hello" at the second. -/
theorem ChatCompletions_first_success_witness :
    (attemptResult answersFirst "hi" 1 = .ok (responseWith "hello" "") ∧
      attempts (ChatCompletions answersFirst "hi").trace = [1] ∧
      (attempts (ChatCompletions answersFirst "hi").trace).length = 1 ∧
      (ChatCompletions answersFirst "hi").err = none ∧
      (ChatCompletions answersFirst "hi").reply = "hello") ∧
    (attemptResult answersSecond "hi" 2 = .ok (responseWith "hello" "") ∧
      attempts (ChatCompletions answersSecond "hi").trace = [1, 2] ∧
      (attempts (ChatCompletions answersSecond "hi").trace).length = 2 ∧
      (ChatCompletions answersSecond "hi").err = none ∧
      (ChatCompletions answersSecond "hi").reply = "hello") :=
  ⟨⟨rfl, ChatCompletions_first_success answersFirst "hi" 1 (responseWith "hello" "")
      (by decide) (by decide) rfl rfl (fun j h1 h2 => absurd h2 (by omega))⟩,
   ⟨rfl, ChatCompletions_first_success answersSecond "hi" 2 (responseWith "hello" "")
      (by decide) (by decide) rfl rfl
      (fun j h1 h2 => by
        have hj : j = 1 := by omega
        subst hj
        exact Or.inr ⟨responseWith "" "rate limited", rfl, by decide⟩)⟩⟩

/-- C2 at a concrete input: three timeouts. -/
theorem ChatCompletions_all_errors_witness :
    attemptResult alwaysTimingOut "hi" 3 = .error "client.Do error: timeout" ∧
    timeline (ChatCompletions alwaysTimingOut "hi").trace
      = [.attempt 1, .sleep (100 * Millisecond), .attempt 2, .sleep (200 * Millisecond),
         .attempt 3] ∧
    (ChatCompletions alwaysTimingOut "hi").reply = "" ∧
    (ChatCompletions alwaysTimingOut "hi").err = some "client.Do error: timeout" :=
  ⟨rfl, ChatCompletions_all_errors alwaysTimingOut "hi" "client.Do error: timeout"
    "client.Do error: timeout" "client.Do error: timeout" rfl rfl rfl⟩

/-- C3 at a concrete input: three responses carrying a provider error. -/
theorem ChatCompletions_all_provider_errors_witness :
    attemptResult alwaysRateLimited "hi" 3 = .ok (responseWith "draft" "rate limited") ∧
    attempts (ChatCompletions alwaysRateLimited "hi").trace = [1, 2, 3] ∧
    (ChatCompletions alwaysRateLimited "hi").err = none ∧
    (ChatCompletions alwaysRateLimited "hi").reply = "draft" :=
  ⟨rfl, ChatCompletions_all_provider_errors alwaysRateLimited "hi"
    (responseWith "draft" "rate limited") (responseWith "draft" "rate limited")
    (responseWith "draft" "rate limited") rfl rfl rfl (by decide) (by decide) (by decide)⟩

/-- C4 at a concrete input: a configuration with neither URL nor key. -/
theorem ChatCompletions_unconfigured_no_http_witness :
    (neverConfigured 1).cfg.ApiUrl = "" ∧
    (ChatCompletions neverConfigured "hi").err ≠ none ∧
    (ChatCompletions neverConfigured "hi").reply = "" ∧
    (ChatCompletions neverConfigured "hi").trace.all (fun e => !e.isRequestStep) = true ∧
    builtRequests (ChatCompletions neverConfigured "hi").trace = [] ∧
    requestBodies (ChatCompletions neverConfigured "hi").trace = [] :=
  ⟨rfl, ChatCompletions_unconfigured_no_http neverConfigured "hi" (fun _ _ _ => Or.inl rfl)⟩

/-- C5 as stated fails. With neither URL nor key configured, each call of
`httpRequestChatCompletions` returns `errors.New("api url required")`
(chat.go:90-92); the loop logs it and takes `continue` (chat.go:66-69), so the
call makes the attempts 1, 2, 3 and sleeps 100ms and 200ms: it does not stop
after one attempt and one configuration load, and it does sleep. -/
theorem config_check_is_retried :
    (∀ n, (neverConfigured n).cfg.ApiUrl = "" ∨ (neverConfigured n).cfg.ApiKey = "") ∧
    attempts (ChatCompletions neverConfigured "hi").trace = [1, 2, 3] ∧
    sleeps (ChatCompletions neverConfigured "hi").trace
      = [100 * Millisecond, 200 * Millisecond] ∧
    ¬ ((attempts (ChatCompletions neverConfigured "hi").trace).length = 1 ∧
       configLoads (ChatCompletions neverConfigured "hi").trace = 1 ∧
       sleeps (ChatCompletions neverConfigured "hi").trace = []) := by
  have ha : attempts (ChatCompletions neverConfigured "hi").trace = [1, 2, 3] := by
    simp [ChatCompletions, retryLoop, httpRequestChatCompletions, neverConfigured,
      unconfigured, attempts]
  have hs : sleeps (ChatCompletions neverConfigured "hi").trace
      = [100 * Millisecond, 200 * Millisecond] := by
    simp [ChatCompletions, retryLoop, httpRequestChatCompletions, neverConfigured,
      unconfigured, sleeps, Millisecond]
  refine ⟨fun _ => Or.inl rfl, ha, hs, ?_⟩
  rw [ha]
  simp

/-- C5 as amended, at a concrete input. -/
theorem ChatCompletions_unconfigured_retries_witness :
    (neverConfigured 3).cfg.ApiKey = "" ∧
    attempts (ChatCompletions neverConfigured "hello").trace = [1, 2, 3] ∧
    configLoads (ChatCompletions neverConfigured "hello").trace = 3 ∧
    sleeps (ChatCompletions neverConfigured "hello").trace
      = [100 * Millisecond, 200 * Millisecond] ∧
    (ChatCompletions neverConfigured "hello").reply = "" ∧
    (ChatCompletions neverConfigured "hello").err = some "api url required" :=
  ⟨rfl, ChatCompletions_unconfigured_retries neverConfigured "hello"
    (fun _ _ _ => Or.inl rfl)⟩

/-- C6 at a concrete input. -/
theorem httpRequest_builds_user_message_witness :
    goodConfig.ApiUrl ≠ "" ∧ goodConfig.ApiKey ≠ "" ∧
    ∃ r m,
      (∀ runtimes,
        builtRequests (httpRequestChatCompletions timingOut "hi" runtimes).2 = [r]) ∧
      r.Stream = false ∧ r.Model = "gpt-3.5-turbo" ∧
      r.Messages = some [m] ∧ Slice.len r.Messages = 1 ∧
      m.Role = "user" ∧ m.Content = "hi" :=
  ⟨by decide, by decide,
    httpRequest_builds_user_message timingOut "hi" (by decide) (by decide)⟩

/-- C7 as stated fails. `Stream` is tagged `json:"stream,omitempty"`
(chat.go:50) and set to `false` (chat.go:105), the empty value of a `bool`, so
the encoder leaves the field out: the body sent for the prompt "hi" has the
keys `model` and `messages` only, and no key `stream`. -/
theorem request_body_omits_stream :
    requestBodies (httpRequestChatCompletions timingOut "hi" 1).2
      = [.obj [("model", .str "gpt-3.5-turbo"),
          ("messages", .arr [.obj [("role", .str "user"), ("content", .str "hi")]])]] ∧
    ¬ (∀ body ∈ requestBodies (httpRequestChatCompletions timingOut "hi" 1).2,
        (∀ k, k ∈ JSON.keys body ↔ k ∈ ["model", "messages", "stream"]) ∧
        JSON.field "stream" body = some (.bool false)) := by
  have hb : requestBodies (httpRequestChatCompletions timingOut "hi" 1).2
      = [.obj [("model", .str "gpt-3.5-turbo"),
          ("messages", .arr [.obj [("role", .str "user"), ("content", .str "hi")]])]] := by
    rfl
  refine ⟨hb, ?_⟩
  rw [hb]
  intro h
  have hk := ((h _ (List.mem_singleton.2 rfl)).1 "stream").2 (by simp)
  simp [JSON.keys] at hk

/-- C7 as amended, at a concrete input. -/
theorem request_body_is_model_and_messages_witness :
    goodConfig.ApiUrl ≠ "" ∧ goodConfig.ApiKey ≠ "" ∧
    requestBodies (httpRequestChatCompletions timingOut "hi" 2).2
      = [.obj [("model", .str "gpt-3.5-turbo"),
          ("messages", .arr [.obj [("role", .str "user"), ("content", .str "hi")]])]] :=
  ⟨by decide, by decide,
    (request_body_is_model_and_messages timingOut "hi" 2).2.2 (by decide) (by decide)⟩

/-- C8 as stated fails. The first attempt returns a parsed response with
`error.message` "rate limited", so the loop goes on (chat.go:70-72); the
second and third attempts fail in `client.Do`, and `resErr`, assigned anew at
each attempt (chat.go:65), holds the third error after the loop: an error is
returned although the first attempt produced a parsed response. -/
theorem error_returned_after_parsed_response :
    (ChatCompletions rateLimitedThenTimingOut "hi").err = some "client.Do error: timeout" ∧
    attemptResult rateLimitedThenTimingOut "hi" 1 = .ok (responseWith "" "rate limited") ∧
    ¬ ((ChatCompletions rateLimitedThenTimingOut "hi").err ≠ none →
        ∀ n ∈ attempts (ChatCompletions rateLimitedThenTimingOut "hi").trace,
          ∃ e, attemptResult rateLimitedThenTimingOut "hi" n = .error e) := by
  have he : (ChatCompletions rateLimitedThenTimingOut "hi").err
      = some "client.Do error: timeout" := by
    simp [ChatCompletions, retryLoop, httpRequestChatCompletions, rateLimitedThenTimingOut,
      timingOut, answering, goodConfig, responseWith, marshal_requestBody]
  have ha : attempts (ChatCompletions rateLimitedThenTimingOut "hi").trace = [1, 2, 3] := by
    simp [ChatCompletions, retryLoop, httpRequestChatCompletions, rateLimitedThenTimingOut,
      timingOut, answering, goodConfig, responseWith, marshal_requestBody, attempts]
  refine ⟨he, rfl, ?_⟩
  intro h
  obtain ⟨e, hx⟩ := h (by rw [he]; simp) 1 (by rw [ha]; simp)
  exact absurd hx (by simp [attemptResult, httpRequestChatCompletions,
    rateLimitedThenTimingOut, answering, goodConfig, marshal_requestBody])

/-- C8 as amended, at a concrete input. -/
theorem ChatCompletions_error_is_last_error_witness :
    (ChatCompletions alwaysTimingOut "hello").err ≠ none ∧
    attempts (ChatCompletions alwaysTimingOut "hello").trace = [1, 2, 3] ∧
    (∃ e, attemptResult alwaysTimingOut "hello" 3 = .error e ∧
      (ChatCompletions alwaysTimingOut "hello").err = some e) ∧
    (∀ j, 1 ≤ j → j < 3 →
      (∃ e, attemptResult alwaysTimingOut "hello" j = .error e) ∨
      (∃ r, attemptResult alwaysTimingOut "hello" j = .ok r ∧ r.Error.Message ≠ "")) := by
  have he : (ChatCompletions alwaysTimingOut "hello").err ≠ none := by
    simp [ChatCompletions, retryLoop, httpRequestChatCompletions, alwaysTimingOut,
      timingOut, goodConfig, marshal_requestBody]
  exact ⟨he, ChatCompletions_error_is_last_error alwaysTimingOut "hello" he⟩

end Gpt
